import Mathlib

/-!
# Shallow embedding of the library management system

This file embeds the data model and the public operations of the library
service (`library_service.py` over the store primitives of `database.py`)
and proves the specification claims about them.

Modelling conventions:
* Timestamps (`datetime`) are modelled by `DTime`: an integer calendar-day
  index `day` (what Python's `.date()` projects to; differences of `.date()`
  values in whole days are differences of `day`) together with a
  second-of-day component `sec` so that full `datetime` comparisons
  (used for `is_overdue` and for `ORDER BY borrow_date`) can be finer than
  date comparisons.  The ISO text round-trip through the store
  (`isoformat` / `fromisoformat` / lexicographic `ORDER BY` on the ISO text)
  is order- and value-faithful for such timestamps, so the store keeps
  `DTime` values directly.  `strftime` date rendering is modelled by
  printing the day index; no claim depends on the rendered text of a date.
* Currency is modelled in integer cents.  Every float the fee code
  manipulates (`k*0.50 + m*1.00`, `min(..,15.00)`, sums of such) is an
  exact binary float that is a multiple of 0.01 below 2^53, so Python's
  float arithmetic, `round(fee, 2)` and `f"{x:.2f}"` formatting coincide
  with exact integer-cent arithmetic and decimal rendering.
* The store (sqlite) is modelled as in-memory lists of rows; the store
  write primitives always succeed (no injected sqlite faults), matching
  the happy path of `insert_*`/`update_*` which return `True` unless the
  driver raises.
* Python's `str.isdigit`/`str.strip`/`str.casefold` are modelled by
  ASCII `Char.isDigit`, `pyStrip` and `pyLower` below, which agree with
  Python on the ASCII data the system handles.
-/

/-- A timestamp: calendar-day index plus a within-day component.
`day` is what `.date()` projects to. -/
structure DTime where
  day : Int
  sec : Nat
deriving DecidableEq, Repr

/-- Full-timestamp strict order (`datetime < datetime`), lexicographic on
(day, within-day time); agrees with `ORDER BY` on the stored ISO text. -/
def DTime.lt (a b : DTime) : Bool :=
  a.day < b.day || (a.day == b.day && a.sec < b.sec)

/-- A row of the `books` table. -/
structure Book where
  id : Nat
  title : String
  author : String
  isbn : String
  total_copies : Int
  available_copies : Int
deriving DecidableEq, Repr

/-- A row of the `borrow_records` table.  `return_date = none` ⇔ the loan
is active.  `rid` is the autoincrement row id. -/
structure BorrowRecord where
  rid : Nat
  patron_id : String
  book_id : Nat
  borrow_date : DTime
  due_date : DTime
  return_date : Option DTime
deriving DecidableEq, Repr

/-- The whole persistent store: the two tables plus their autoincrement
counters. -/
structure LibState where
  books : List Book
  records : List BorrowRecord
  nextBookId : Nat
  nextRecId : Nat
deriving DecidableEq, Repr

/-- A fresh database right after `init_database` (sqlite autoincrement
starts at 1). -/
def emptyState : LibState := ⟨[], [], 1, 1⟩

/-- Python `s.isdigit()`: non-empty and all digits. -/
def pyIsDigit (s : String) : Bool :=
  !s.isEmpty && s.toList.all Char.isDigit

/-- The patron-id guard used across the service:
`not patron_id or not patron_id.isdigit() or len(patron_id) != 6`, negated. -/
def isValidPatronId (pid : String) : Bool :=
  pyIsDigit pid && pid.length == 6

/-- Python's `needle in hay` on strings: contiguous-substring test. -/
def strContains (hay needle : String) : Bool :=
  decide (List.IsInfix needle.toList hay.toList)

/-- Python `s.strip()`: drop leading and trailing whitespace. -/
def pyStrip (s : String) : String :=
  ⟨((s.data.dropWhile Char.isWhitespace).reverse.dropWhile Char.isWhitespace).reverse⟩

/-- Python `s.lower()` / `s.casefold()` on ASCII text. -/
def pyLower (s : String) : String :=
  ⟨s.data.map Char.toLower⟩

/-- Two-digit rendering of a cents remainder (0 ≤ n < 100). -/
def pad2 (n : Int) : String :=
  if n < 10 then "0" ++ toString n else toString n

/-- `f"{cents/100:.2f}"` for a non-negative integer number of cents. -/
def fmtCents (c : Int) : String :=
  toString (c / 100) ++ "." ++ pad2 (c % 100)

/-- `strftime("%Y-%m-%d")` stand-in: renders the calendar-day index.
No claim depends on the rendered text of a date. -/
def fmtDay (t : DTime) : String := toString t.day

/-! ## Store primitives (`database.py`) -/

/-- `get_book_by_id`: `SELECT * FROM books WHERE id = ?` (first row). -/
def get_book_by_id (st : LibState) (book_id : Nat) : Option Book :=
  st.books.find? (fun b => b.id == book_id)

/-- `get_book_by_isbn`: `SELECT * FROM books WHERE isbn = ?` (first row). -/
def get_book_by_isbn (st : LibState) (isbn : String) : Option Book :=
  st.books.find? (fun b => b.isbn == isbn)

/-- Lexicographic order on character lists by codepoint, the order sqlite
uses on UTF-8 TEXT (memcmp = codepoint order). -/
def charListLe : List Char → List Char → Bool
  | [], _ => true
  | _ :: _, [] => false
  | a :: as, b :: bs => a.toNat < b.toNat || (a.toNat == b.toNat && charListLe as bs)

theorem charListLe_total : ∀ as bs, charListLe as bs = true ∨ charListLe bs as = true := by
  intro as
  induction as with
  | nil => intro bs; left; rfl
  | cons a as ih =>
    intro bs
    cases bs with
    | nil => right; rfl
    | cons b bs =>
      rcases ih bs with h | h <;>
        simp [charListLe, h] <;> omega

theorem charListLe_trans : ∀ as bs cs, charListLe as bs = true →
    charListLe bs cs = true → charListLe as cs = true := by
  intro as
  induction as with
  | nil => intro bs cs _ _; rfl
  | cons a as ih =>
    intro bs cs hab hbc
    cases bs with
    | nil => simp [charListLe] at hab
    | cons b bs =>
      cases cs with
      | nil => simp [charListLe] at hbc
      | cons c cs =>
        simp only [charListLe, Bool.or_eq_true, Bool.and_eq_true, decide_eq_true_eq,
          beq_iff_eq] at hab hbc ⊢
        rcases hab with hab | ⟨hab, hab2⟩ <;> rcases hbc with hbc | ⟨hbc, hbc2⟩
        · exact Or.inl (by omega)
        · exact Or.inl (by omega)
        · exact Or.inl (by omega)
        · exact Or.inr ⟨by omega, ih bs cs hab2 hbc2⟩

/-- Sort relation of `ORDER BY title`. -/
def titleLe (a b : Book) : Prop := charListLe a.title.data b.title.data = true

instance : DecidableRel titleLe := fun a b => by
  unfold titleLe; infer_instance

instance : IsTotal Book titleLe := ⟨fun a b => charListLe_total a.title.data b.title.data⟩

instance : IsTrans Book titleLe :=
  ⟨fun a b c h h2 => charListLe_trans a.title.data b.title.data c.title.data h h2⟩

/-- `get_all_books`: `SELECT * FROM books ORDER BY title`. -/
def get_all_books (st : LibState) : List Book :=
  st.books.insertionSort titleLe

/-- Row tested by `get_active_borrow`'s WHERE clause. -/
def matchesActivePair (pid : String) (book_id : Nat) (r : BorrowRecord) : Bool :=
  r.patron_id == pid && r.book_id == book_id && r.return_date == none

/-- `ORDER BY borrow_date DESC LIMIT 1`: the latest row by borrow date
(first row wins ties, matching the store's row order). -/
def latestByBorrowDate (l : List BorrowRecord) : Option BorrowRecord :=
  l.foldl
    (fun acc r =>
      match acc with
      | none => some r
      | some b => if DTime.lt b.borrow_date r.borrow_date then some r else some b)
    none

/-- `get_active_borrow`: most recent active record for (patron, book). -/
def get_active_borrow (st : LibState) (pid : String) (book_id : Nat) :
    Option BorrowRecord :=
  latestByBorrowDate (st.records.filter (matchesActivePair pid book_id))

/-- `get_patron_borrow_count`: number of active records for a patron. -/
def get_patron_borrow_count (st : LibState) (pid : String) : Nat :=
  (st.records.filter (fun r => r.patron_id == pid && r.return_date == none)).length

/-- `insert_book`: appends a row, autoincrementing the id. -/
def insert_book (st : LibState) (title author isbn : String)
    (total_copies available_copies : Int) : LibState :=
  { st with
    books := st.books ++ [⟨st.nextBookId, title, author, isbn, total_copies, available_copies⟩]
    nextBookId := st.nextBookId + 1 }

/-- `insert_borrow_record`: appends an active loan row. -/
def insert_borrow_record (st : LibState) (pid : String) (book_id : Nat)
    (borrow_date due_date : DTime) : LibState :=
  { st with
    records := st.records ++ [⟨st.nextRecId, pid, book_id, borrow_date, due_date, none⟩]
    nextRecId := st.nextRecId + 1 }

/-- `update_book_availability`:
`UPDATE books SET available_copies = available_copies + ? WHERE id = ?`. -/
def update_book_availability (st : LibState) (book_id : Nat) (change : Int) : LibState :=
  { st with
    books := st.books.map (fun b =>
      if b.id == book_id then { b with available_copies := b.available_copies + change } else b) }

/-- `update_borrow_record_return_date`:
`UPDATE borrow_records SET return_date = ? WHERE patron_id = ? AND book_id = ?
AND return_date IS NULL` — note: every matching active row is updated. -/
def update_borrow_record_return_date (st : LibState) (pid : String) (book_id : Nat)
    (return_date : DTime) : LibState :=
  { st with
    records := st.records.map (fun r =>
      if matchesActivePair pid book_id r then { r with return_date := some return_date } else r) }

/-- Joined row shape of `get_patron_borrowed_books`. -/
structure BorrowedRow where
  book_id : Nat
  title : String
  author : String
  borrow_date : DTime
  due_date : DTime
  is_overdue : Bool
deriving DecidableEq, Repr

/-- Sort relation of `ORDER BY br.borrow_date` (ascending). -/
def borrowDateLe (a b : BorrowRecord) : Prop :=
  DTime.lt b.borrow_date a.borrow_date = false

instance : DecidableRel borrowDateLe := fun a b => by
  unfold borrowDateLe; infer_instance

/-- `get_patron_borrowed_books`: active loans of a patron joined with the
books table, ascending by borrow date; `is_overdue` compares full
timestamps (`datetime.now() > due`). -/
def get_patron_borrowed_books (st : LibState) (pid : String) (now : DTime) :
    List BorrowedRow :=
  ((st.records.filter (fun r => r.patron_id == pid && r.return_date == none)).insertionSort
      borrowDateLe).filterMap
    (fun r =>
      match get_book_by_id st r.book_id with
      | none => none
      | some b =>
        some ⟨r.book_id, b.title, b.author, r.borrow_date, r.due_date,
          DTime.lt r.due_date now⟩)

/-- Joined row shape of `get_patron_borrow_history`. -/
structure HistoryRow where
  book_id : Nat
  title : String
  author : String
  borrow_date : DTime
  due_date : DTime
  return_date : Option DTime
deriving DecidableEq, Repr

/-- Sort relation of `ORDER BY br.borrow_date DESC`. -/
def borrowDateGe (a b : BorrowRecord) : Prop :=
  DTime.lt a.borrow_date b.borrow_date = false

instance : DecidableRel borrowDateGe := fun a b => by
  unfold borrowDateGe; infer_instance

/-- `get_patron_borrow_history`: every borrow of a patron joined with the
books table, newest first. -/
def get_patron_borrow_history (st : LibState) (pid : String) : List HistoryRow :=
  ((st.records.filter (fun r => r.patron_id == pid)).insertionSort borrowDateGe).filterMap
    (fun r =>
      match get_book_by_id st r.book_id with
      | none => none
      | some b => some ⟨r.book_id, b.title, b.author, r.borrow_date, r.due_date, r.return_date⟩)

/-! ## Service layer (`library_service.py`)

Each operation takes the store state and the current time explicitly and
returns `(ok, message, new state)` (reads leave the state unchanged). -/

/-- `add_book_to_catalog` (R1): validation chain, duplicate-ISBN check,
then insert with `available_copies = total_copies`. -/
def add_book_to_catalog (st : LibState) (title author isbn : String)
    (total_copies : Int) : Bool × String × LibState :=
  if (pyStrip title).isEmpty then (false, "Title is required.", st)
  else if 200 < (pyStrip title).length then (false, "Title must be less than 200 characters.", st)
  else if (pyStrip author).isEmpty then (false, "Author is required.", st)
  else if 100 < (pyStrip author).length then (false, "Author must be less than 100 characters.", st)
  else if isbn.length ≠ 13 then (false, "ISBN must be exactly 13 digits.", st)
  else if total_copies ≤ 0 then (false, "Total copies must be a positive integer.", st)
  else
    match get_book_by_isbn st isbn with
    | some _ => (false, "A book with this ISBN already exists.", st)
    | none =>
      (true, "Book \"" ++ (pyStrip title) ++ "\" has been successfully added to the catalog.",
        insert_book st (pyStrip title) (pyStrip author) isbn total_copies total_copies)

/-- `borrow_book_by_patron` (R3): guards, then insert a 14-day loan and
decrement availability. -/
def borrow_book_by_patron (st : LibState) (pid : String) (book_id : Nat)
    (now : DTime) : Bool × String × LibState :=
  if !isValidPatronId pid then
    (false, "Invalid patron ID. Must be exactly 6 digits.", st)
  else
    match get_book_by_id st book_id with
    | none => (false, "Book not found.", st)
    | some book =>
      if book.available_copies ≤ 0 then
        (false, "This book is currently not available.", st)
      else if 5 ≤ get_patron_borrow_count st pid then
        (false, "You have reached the maximum borrowing limit of 5 books.", st)
      else
        let due : DTime := ⟨now.day + 14, now.sec⟩
        let st1 := insert_borrow_record st pid book_id now due
        let st2 := update_book_availability st1 book_id (-1)
        (true, "Successfully borrowed \"" ++ book.title ++ "\". Due date: " ++
          fmtDay due ++ ".", st2)

/-- Late fee of the return path: flat `LATE_FEE_CENTS = 50` per day past
the due date (date-only comparison), no tier, no cap. -/
def returnFeeCents (due now : DTime) : Int :=
  if due.day < now.day then (now.day - due.day) * 50 else 0

/-- `return_book_by_patron` (R4): guards, flat late fee, set return date
on the pair's active rows, increment availability. -/
def return_book_by_patron (st : LibState) (pid : String) (book_id : Nat)
    (now : DTime) : Bool × String × LibState :=
  if !isValidPatronId pid then
    (false, "Invalid patron ID (need 6 digits).", st)
  else
    match get_book_by_id st book_id with
    | none => (false, "Book not found.", st)
    | some _ =>
      match get_active_borrow st pid book_id with
      | none => (false, "No active loan for this patron and book.", st)
      | some loan =>
        let fee_cents := returnFeeCents loan.due_date now
        let st1 := update_borrow_record_return_date st pid book_id now
        let st2 := update_book_availability st1 book_id 1
        if 0 < fee_cents then
          (true, "Return complete. Late fee: $" ++ fmtCents fee_cents ++ ".", st2)
        else
          (true, "Return complete. No fee.", st2)

/-- A fee quote (`{'fee_amount', 'days_overdue', 'status'}`); the amount is
in cents. -/
structure FeeQuote where
  fee_cents : Int
  days_overdue : Int
  status : String
deriving DecidableEq, Repr

/-- The tiered, capped fee schedule of R5 on a day count:
$0.50/day for the first 7 overdue days, $1.00/day beyond, capped at $15. -/
def tieredFeeCents (days_late : Int) : Int :=
  min (min days_late 7 * 50 + max 0 (days_late - 7) * 100) 1500

/-- `calculate_late_fee_for_book` (R5).  The due date held by an active
loan row always parses (it was stored via `isoformat`), so the
unparsable-due-date guard of the source cannot fire in the model. -/
def calculate_late_fee_for_book (st : LibState) (pid : String) (book_id : Nat)
    (now : DTime) : FeeQuote :=
  if !isValidPatronId pid then ⟨0, 0, "Invalid patron ID"⟩
  else
    match get_book_by_id st book_id with
    | none => ⟨0, 0, "Book not found"⟩
    | some _ =>
      match get_active_borrow st pid book_id with
      | none => ⟨0, 0, "No active loan"⟩
      | some loan =>
        let days_late := now.day - loan.due_date.day
        if days_late ≤ 0 then ⟨0, 0, "on time"⟩
        else ⟨tieredFeeCents days_late, days_late, "overdue"⟩

/-- `search_books_in_catalog` (R6). -/
def search_books_in_catalog (st : LibState) (search_term search_type : String) :
    List Book :=
  let field := pyLower (pyStrip search_type)
  let query := pyStrip search_term
  if query.isEmpty || !(field == "title" || field == "author" || field == "isbn") then []
  else if field == "isbn" then
    if query.length != 13 || !pyIsDigit query then []
    else
      match get_book_by_isbn st query with
      | some hit => [hit]
      | none => []
  else
    let shelf := get_all_books st
    let needle := pyLower query
    if field == "title" then
      shelf.filter (fun row => strContains (pyLower row.title) needle)
    else if field == "author" then
      shelf.filter (fun row => strContains (pyLower row.author) needle)
    else []

/-- Entry of a report's `borrowed_now` list. -/
structure NowEntry where
  book_id : Nat
  title : String
  author : String
  due_date : String
  overdue : Bool
deriving DecidableEq, Repr

/-- Entry of a report's `history` list. -/
structure HistEntry where
  book_id : Nat
  title : String
  author : String
  borrow_date : String
  due_date : String
  return_date : Option String
deriving DecidableEq, Repr

/-- A patron status report (R7); `late_fees` is the 2-decimal total. -/
structure PatronReport where
  borrowed_now : List NowEntry
  active_count : Nat
  late_fees : String
  history : List HistEntry
  status : String
deriving DecidableEq, Repr

/-- `get_patron_status_report` (R7): strips the id, degrades to an
all-zero report when the stripped id is not 6 digits, else aggregates
active loans, their fee quotes and the full history. -/
def get_patron_status_report (st : LibState) (patron_id : String) (now : DTime) :
    PatronReport :=
  let pid := pyStrip patron_id
  if !(pyIsDigit pid && pid.length == 6) then
    ⟨[], 0, "0.00", [], "Invalid patron ID"⟩
  else
    let active_rows := get_patron_borrowed_books st pid now
    let fee_total := active_rows.foldl
      (fun acc row => acc + (calculate_late_fee_for_book st pid row.book_id now).fee_cents) 0
    let borrowed_now := active_rows.map
      (fun row => NowEntry.mk row.book_id row.title row.author (fmtDay row.due_date)
        row.is_overdue)
    let history := (get_patron_borrow_history st pid).map
      (fun r => HistEntry.mk r.book_id r.title r.author (fmtDay r.borrow_date)
        (fmtDay r.due_date) (r.return_date.map fmtDay))
    ⟨borrowed_now, borrowed_now.length, fmtCents fee_total, history, "ok"⟩

/-- Outcome of one `process_payment` call on the external gateway:
a returned `(success, transaction_id, message)` triple, or a raised
exception (whose text the service catches). -/
inductive GatewayResult where
  | ret (success : Bool) (transaction_id : Option String) (message : String)
  | raised (e : String)

/-- A payment gateway collaborator: `process_payment` as a function of
(patron_id, amount in cents, description). -/
def Gateway := String → Int → String → GatewayResult

/-- `pay_late_fees`: validates, recomputes the fee, rejects a zero fee
before touching the book or the gateway, then delegates to the gateway.
The `'fee_amount' not in fee_info` guard of the source cannot fire (every
quote carries the field) and is dropped by the model. -/
def pay_late_fees (st : LibState) (pid : String) (book_id : Nat) (now : DTime)
    (gw : Gateway) : Bool × String × Option String :=
  if !isValidPatronId pid then
    (false, "Invalid patron ID. Must be exactly 6 digits.", none)
  else
    let fee_info := calculate_late_fee_for_book st pid book_id now
    if fee_info.fee_cents ≤ 0 then
      (false, "No late fees to pay for this book.", none)
    else
      match get_book_by_id st book_id with
      | none => (false, "Book not found.", none)
      | some book =>
        match gw pid fee_info.fee_cents ("Late fees for '" ++ book.title ++ "'") with
        | .ret true txn msg => (true, "Payment successful! " ++ msg, txn)
        | .ret false _ msg => (false, "Payment failed: " ++ msg, none)
        | .raised e => (false, "Payment processing error: " ++ e, none)

/-! ## Reachable store states

The states reachable from a fresh database by the public mutating
operations, at arbitrary inputs and times. -/

inductive Reachable : LibState → Prop
  | empty : Reachable emptyState
  | add (st : LibState) (title author isbn : String) (copies : Int)
      (h : Reachable st) : Reachable (add_book_to_catalog st title author isbn copies).2.2
  | borrow (st : LibState) (pid : String) (book_id : Nat) (now : DTime)
      (h : Reachable st) : Reachable (borrow_book_by_patron st pid book_id now).2.2
  | ret (st : LibState) (pid : String) (book_id : Nat) (now : DTime)
      (h : Reachable st) : Reachable (return_book_by_patron st pid book_id now).2.2

/-! ## Helper lemmas -/

/-- Reduction of the fee quote once the guards are known to pass. -/
theorem calculate_late_fee_eq (st : LibState) (pid : String) (book_id : Nat)
    (now : DTime) (book : Book) (loan : BorrowRecord)
    (hpid : isValidPatronId pid = true)
    (hbook : get_book_by_id st book_id = some book)
    (hloan : get_active_borrow st pid book_id = some loan) :
    calculate_late_fee_for_book st pid book_id now =
      if now.day - loan.due_date.day ≤ 0 then ⟨0, 0, "on time"⟩
      else ⟨tieredFeeCents (now.day - loan.due_date.day),
        now.day - loan.due_date.day, "overdue"⟩ := by
  unfold calculate_late_fee_for_book
  rw [hpid, hbook, hloan]
  simp

/-- Reduction of the return path once the guards are known to pass. -/
theorem return_book_eq (st : LibState) (pid : String) (book_id : Nat)
    (now : DTime) (book : Book) (loan : BorrowRecord)
    (hpid : isValidPatronId pid = true)
    (hbook : get_book_by_id st book_id = some book)
    (hloan : get_active_borrow st pid book_id = some loan) :
    return_book_by_patron st pid book_id now =
      (true,
        if 0 < returnFeeCents loan.due_date now then
          "Return complete. Late fee: $" ++ fmtCents (returnFeeCents loan.due_date now) ++ "."
        else "Return complete. No fee.",
        update_book_availability
          (update_borrow_record_return_date st pid book_id now) book_id 1) := by
  unfold return_book_by_patron
  rw [hpid, hbook, hloan]
  by_cases h : 0 < returnFeeCents loan.due_date now <;> simp [h]

/-! ## C1 -/

/-- C1: for every active loan, due date and current time,
`calculate_late_fee_for_book` returns a zero on-time quote when
`now.date() <= due_date.date()`, and otherwise the tiered fee
`min(min(days_late,7)*0.50 + max(0,days_late-7)*1.00, 15.00)` (in cents)
with status `overdue` and `days_overdue = days_late`; in particular 3 days
late gives $1.50, 10 days gives $6.50 and 40 days gives the $15.00 cap. -/
theorem claim_c1_fee_policy (st : LibState) (pid : String) (book_id : Nat)
    (now : DTime) (book : Book) (loan : BorrowRecord)
    (hpid : isValidPatronId pid = true)
    (hbook : get_book_by_id st book_id = some book)
    (hloan : get_active_borrow st pid book_id = some loan) :
    (now.day ≤ loan.due_date.day →
      calculate_late_fee_for_book st pid book_id now = ⟨0, 0, "on time"⟩) ∧
    (loan.due_date.day < now.day →
      calculate_late_fee_for_book st pid book_id now =
        ⟨min (min (now.day - loan.due_date.day) 7 * 50 +
            max 0 (now.day - loan.due_date.day - 7) * 100) 1500,
          now.day - loan.due_date.day, "overdue"⟩) ∧
    (now.day - loan.due_date.day = 3 →
      (calculate_late_fee_for_book st pid book_id now).fee_cents = 150) ∧
    (now.day - loan.due_date.day = 10 →
      (calculate_late_fee_for_book st pid book_id now).fee_cents = 650) ∧
    (now.day - loan.due_date.day = 40 →
      (calculate_late_fee_for_book st pid book_id now).fee_cents = 1500) := by
  rw [calculate_late_fee_eq st pid book_id now book loan hpid hbook hloan]
  refine ⟨fun h => if_pos (by omega), fun h => ?_, fun h => ?_, fun h => ?_, fun h => ?_⟩
  · rw [if_neg (by omega)]; rfl
  · rw [h, if_neg (by omega)]; rfl
  · rw [h, if_neg (by omega)]; rfl
  · rw [h, if_neg (by omega)]; rfl

/-- Concrete store used by several witnesses: one book, one active loan of
patron 123456 due on day 14. -/
def wBook : Book := ⟨1, "Wide Sargasso Sea", "Jean Rhys", "9780393960129", 2, 1⟩

def wLoan : BorrowRecord := ⟨1, "123456", 1, ⟨0, 0⟩, ⟨14, 0⟩, none⟩

def wState : LibState := ⟨[wBook], [wLoan], 2, 2⟩

/-- C1 witness: 10 days past the due date the quote is 650 cents. -/
theorem claim_c1_fee_policy_witness :
    (calculate_late_fee_for_book wState "123456" 1 ⟨24, 0⟩).fee_cents = 650 :=
  (claim_c1_fee_policy wState "123456" 1 ⟨24, 0⟩ wBook wLoan (by decide) (by decide)
    (by decide)).2.2.2.1 (by decide)

/-! ## C5 -/

/-- C5 (code bug): `add_book_to_catalog` validates only the LENGTH of the
isbn.  A 13-character isbn made of letters — not 13 digits — is accepted
and the book is inserted, although the function's own docstring and its
rejection message ("ISBN must be exactly 13 digits.") require 13 digits. -/
theorem claim_c5_nondigit_isbn_accepted :
    (add_book_to_catalog emptyState "The Trial" "Franz Kafka" "abcdefghijklm" 1).1 = true ∧
    get_book_by_isbn (add_book_to_catalog emptyState "The Trial" "Franz Kafka"
        "abcdefghijklm" 1).2.2 "abcdefghijklm" =
      some ⟨1, "The Trial", "Franz Kafka", "abcdefghijklm", 1, 1⟩ ∧
    pyIsDigit "abcdefghijklm" = false := by
  refine ⟨by decide, by decide, by decide⟩

/-! ## C6 -/

/-- C6: a patron with at least 5 active borrow records is rejected with the
maximum-borrowing-limit message, whatever the requested book (valid patron
id, existing and available book), and the store is unchanged. -/
theorem claim_c6_borrow_limit (st : LibState) (pid : String) (book_id : Nat)
    (now : DTime) (book : Book)
    (hpid : isValidPatronId pid = true)
    (hbook : get_book_by_id st book_id = some book)
    (havail : 0 < book.available_copies)
    (hcount : 5 ≤ get_patron_borrow_count st pid) :
    borrow_book_by_patron st pid book_id now =
      (false, "You have reached the maximum borrowing limit of 5 books.", st) := by
  unfold borrow_book_by_patron
  rw [hpid, hbook]
  simp only [Bool.not_true, Bool.false_eq_true, if_false]
  rw [if_neg (by omega), if_pos hcount]

/-- Store whose patron 222222 holds five active loans (on books 2–6, each
checked out to exhaustion) while book 1 is available. -/
def busyState : LibState :=
  ⟨[⟨1, "The Overcoat", "N. Gogol", "9111111111111", 1, 1⟩,
    ⟨2, "Dead Souls", "N. Gogol", "9111111111112", 1, 0⟩,
    ⟨3, "The Nose", "N. Gogol", "9111111111113", 1, 0⟩,
    ⟨4, "Viy", "N. Gogol", "9111111111114", 1, 0⟩,
    ⟨5, "The Portrait", "N. Gogol", "9111111111115", 1, 0⟩,
    ⟨6, "Taras Bulba", "N. Gogol", "9111111111116", 1, 0⟩],
   [⟨1, "222222", 2, ⟨0, 0⟩, ⟨14, 0⟩, none⟩,
    ⟨2, "222222", 3, ⟨0, 1⟩, ⟨14, 1⟩, none⟩,
    ⟨3, "222222", 4, ⟨0, 2⟩, ⟨14, 2⟩, none⟩,
    ⟨4, "222222", 5, ⟨0, 3⟩, ⟨14, 3⟩, none⟩,
    ⟨5, "222222", 6, ⟨0, 4⟩, ⟨14, 4⟩, none⟩],
   7, 7⟩

/-- C6 witness: the sixth concurrent borrow is rejected with no change. -/
theorem claim_c6_borrow_limit_witness :
    borrow_book_by_patron busyState "222222" 1 ⟨1, 0⟩ =
      (false, "You have reached the maximum borrowing limit of 5 books.", busyState) :=
  claim_c6_borrow_limit busyState "222222" 1 ⟨1, 0⟩
    ⟨1, "The Overcoat", "N. Gogol", "9111111111111", 1, 1⟩
    (by decide) (by decide) (by decide) (by decide)

/-! ## C7 -/

/-- C7: returning an existing book for which the patron holds no active
loan fails with the no-active-loan message and leaves the store — every
book's availability and every borrow record — unchanged. -/
theorem claim_c7_return_without_loan (st : LibState) (pid : String)
    (book_id : Nat) (now : DTime) (book : Book)
    (hpid : isValidPatronId pid = true)
    (hbook : get_book_by_id st book_id = some book)
    (hno : get_active_borrow st pid book_id = none) :
    return_book_by_patron st pid book_id now =
      (false, "No active loan for this patron and book.", st) := by
  unfold return_book_by_patron
  rw [hpid, hbook, hno]
  simp

/-- C7 witness: patron 654321 holds nothing, so returning book 1 is
rejected and the store is untouched. -/
theorem claim_c7_return_without_loan_witness :
    return_book_by_patron wState "654321" 1 ⟨3, 0⟩ =
      (false, "No active loan for this patron and book.", wState) :=
  claim_c7_return_without_loan wState "654321" 1 ⟨3, 0⟩ wBook
    (by decide) (by decide) (by decide)

/-! ## C2 -/

/-- C2 counterexample: with an active loan 10 days past due, the return
message reports a flat $5.00 (10 days at $0.50) while the Fee Policy
quotes $6.50 (7·$0.50 + 3·$1.00) for the same loan at the same time, so
the reported fee does not equal the Fee Policy amount. -/
theorem claim_c2_return_fee_counterexample :
    (return_book_by_patron wState "123456" 1 ⟨24, 0⟩).2.1 =
      "Return complete. Late fee: $5.00." ∧
    (calculate_late_fee_for_book wState "123456" 1 ⟨24, 0⟩).fee_cents = 650 ∧
    returnFeeCents wLoan.due_date ⟨24, 0⟩ = 500 := by
  refine ⟨by decide, by decide, by decide⟩

/-- C2 amended: the return path computes its fee at a flat uncapped $0.50
per day past due (`returnFeeCents`), reports exactly that amount in its
success message ("no fee" when zero), and that amount coincides with the
Fee Policy amount exactly when the loan is at most 7 days overdue or
exactly 30 days overdue (both paths then give $15.00). -/
theorem claim_c2_return_fee_amended (st : LibState) (pid : String)
    (book_id : Nat) (now : DTime) (book : Book) (loan : BorrowRecord)
    (hpid : isValidPatronId pid = true)
    (hbook : get_book_by_id st book_id = some book)
    (hloan : get_active_borrow st pid book_id = some loan) :
    (return_book_by_patron st pid book_id now).1 = true ∧
    (return_book_by_patron st pid book_id now).2.1 =
      (if 0 < returnFeeCents loan.due_date now then
        "Return complete. Late fee: $" ++ fmtCents (returnFeeCents loan.due_date now) ++ "."
       else "Return complete. No fee.") ∧
    (returnFeeCents loan.due_date now =
        (calculate_late_fee_for_book st pid book_id now).fee_cents ↔
      (now.day - loan.due_date.day ≤ 7 ∨ now.day - loan.due_date.day = 30)) := by
  rw [return_book_eq st pid book_id now book loan hpid hbook hloan,
    calculate_late_fee_eq st pid book_id now book loan hpid hbook hloan]
  refine ⟨rfl, rfl, ?_⟩
  unfold returnFeeCents tieredFeeCents
  rcases lt_or_le loan.due_date.day now.day with hlt | hle
  · rw [if_pos hlt, if_neg (by omega)]
    show (now.day - loan.due_date.day) * 50 =
      min (min (now.day - loan.due_date.day) 7 * 50 +
        max 0 (now.day - loan.due_date.day - 7) * 100) 1500 ↔ _
    omega
  · rw [if_neg (by omega), if_pos (by omega)]
    show (0 : Int) = (0 : Int) ↔ _
    exact ⟨fun _ => Or.inl (by omega), fun _ => rfl⟩

/-- C2 witness: a return before the due date reports "no fee". -/
theorem claim_c2_return_fee_amended_witness :
    (return_book_by_patron wState "123456" 1 ⟨10, 0⟩).2.1 =
      "Return complete. No fee." := by
  have h := claim_c2_return_fee_amended wState "123456" 1 ⟨10, 0⟩ wBook wLoan
    (by decide) (by decide) (by decide)
  rw [h.2.1]
  decide

/-! ## C10 -/

/-- A strict extension is never equal to a shorter string. -/
theorem append_ne_of_length_lt (s t u : String) (h : u.length < s.length) :
    s ++ t ≠ u := by
  intro he
  have h2 := congrArg String.length he
  rw [String.length_append] at h2
  omega

/-- C10: `pay_late_fees` never produces its "Book not found." message:
when the book does not exist the fee quote is already zero, so the call
answers "No late fees to pay for this book." before fetching the book;
and no branch of the function — for any store, inputs or gateway
behaviour — returns "Book not found.". -/
theorem claim_c10_book_not_found_unreachable :
    (∀ (st : LibState) (pid : String) (book_id : Nat) (now : DTime) (gw : Gateway),
      isValidPatronId pid = true → get_book_by_id st book_id = none →
      pay_late_fees st pid book_id now gw =
        (false, "No late fees to pay for this book.", none)) ∧
    (∀ (st : LibState) (pid : String) (book_id : Nat) (now : DTime) (gw : Gateway),
      (pay_late_fees st pid book_id now gw).2.1 ≠ "Book not found.") := by
  have hq : ∀ (st : LibState) pid book_id now, get_book_by_id st book_id = none →
      calculate_late_fee_for_book st pid book_id now =
        if !isValidPatronId pid then ⟨0, 0, "Invalid patron ID"⟩
        else ⟨0, 0, "Book not found"⟩ := by
    intro st pid book_id now hnone
    unfold calculate_late_fee_for_book
    rw [hnone]
  constructor
  · intro st pid book_id now gw hpid hnone
    unfold pay_late_fees
    rw [hpid, hq st pid book_id now hnone, hpid]
    simp
  · intro st pid book_id now gw
    unfold pay_late_fees
    cases hpid : isValidPatronId pid with
    | false =>
      show ("Invalid patron ID. Must be exactly 6 digits." : String) ≠ "Book not found."
      decide
    | true =>
      dsimp only
      simp only [Bool.not_true, Bool.false_eq_true, if_false]
      by_cases hfee : (calculate_late_fee_for_book st pid book_id now).fee_cents ≤ 0
      · rw [if_pos hfee]
        show ("No late fees to pay for this book." : String) ≠ "Book not found."
        decide
      · rw [if_neg hfee]
        cases hbook : get_book_by_id st book_id with
        | none =>
          refine absurd ?_ hfee
          rw [hq st pid book_id now hbook, hpid]
          decide
        | some book =>
          dsimp only
          cases hgw : gw pid (calculate_late_fee_for_book st pid book_id now).fee_cents
              ("Late fees for '" ++ book.title ++ "'") with
          | ret s txn msg =>
            cases s with
            | false =>
              exact append_ne_of_length_lt "Payment failed: " msg "Book not found."
                (by decide)
            | true =>
              exact append_ne_of_length_lt "Payment successful! " msg "Book not found."
                (by decide)
          | raised e =>
            exact append_ne_of_length_lt "Payment processing error: " e "Book not found."
              (by decide)

/-- C10 witness: with a valid patron and an absent book, payment is
rejected as fee-free before the book lookup. -/
theorem claim_c10_book_not_found_unreachable_witness :
    pay_late_fees emptyState "123456" 9 ⟨0, 0⟩ (fun _ _ _ => .raised "down") =
      (false, "No late fees to pay for this book.", none) :=
  claim_c10_book_not_found_unreachable.1 emptyState "123456" 9 ⟨0, 0⟩
    (fun _ _ _ => .raised "down") (by decide) (by decide)

/-! ## C9 -/

/-- C9 counterexample: the report code strips the id before validating,
so the 8-character input " 123456 " — which is NOT exactly 6 digits —
produces a normal report tagged "ok", not the all-zero invalid report the
claim promises for every non-6-digit string. -/
theorem claim_c9_status_report_counterexample :
    (" 123456 " : String).length = 8 ∧
    (get_patron_status_report emptyState " 123456 " ⟨0, 0⟩).status = "ok" ∧
    (get_patron_status_report emptyState " 123456 " ⟨0, 0⟩).status ≠
      "Invalid patron ID" := by
  refine ⟨by decide, by decide, by decide⟩

/-- C9 amended: for every patron_id whose STRIPPED value is not exactly
6 digits the report is the all-zero one tagged invalid (the function is
total, so it never raises); and for every patron_id whatsoever the report
satisfies `active_count = len(borrowed_now)`. -/
theorem claim_c9_status_report_amended :
    (∀ (st : LibState) (patron_id : String) (now : DTime),
      (pyIsDigit (pyStrip patron_id) && (pyStrip patron_id).length == 6) = false →
      get_patron_status_report st patron_id now =
        ⟨[], 0, "0.00", [], "Invalid patron ID"⟩) ∧
    (∀ (st : LibState) (patron_id : String) (now : DTime),
      (get_patron_status_report st patron_id now).active_count =
        (get_patron_status_report st patron_id now).borrowed_now.length) := by
  constructor
  · intro st patron_id now h
    unfold get_patron_status_report
    dsimp only
    rw [h]
    rfl
  · intro st patron_id now
    unfold get_patron_status_report
    dsimp only
    split
    · rfl
    · rfl

/-- C9 witness: a malformed id yields exactly the all-zero invalid
report. -/
theorem claim_c9_status_report_amended_witness :
    get_patron_status_report emptyState "12a456" ⟨0, 0⟩ =
      ⟨[], 0, "0.00", [], "Invalid patron ID"⟩ :=
  claim_c9_status_report_amended.1 emptyState "12a456" ⟨0, 0⟩ (by decide)

/-! ## C8 -/

/-- Search with kind "isbn", reduced to its cases. -/
theorem search_isbn_eq (st : LibState) (term : String) :
    search_books_in_catalog st term "isbn" =
      if (pyStrip term).isEmpty then []
      else if (pyStrip term).length != 13 || !pyIsDigit (pyStrip term) then []
      else
        match get_book_by_isbn st (pyStrip term) with
        | some hit => [hit]
        | none => [] := by
  unfold search_books_in_catalog
  dsimp only
  rw [show pyLower (pyStrip "isbn") = "isbn" from by decide]
  by_cases h : (pyStrip term).isEmpty <;> simp [h]

/-- Search with kind "title", reduced to a filter over the sorted shelf. -/
theorem search_title_eq (st : LibState) (term : String)
    (h : (pyStrip term).isEmpty = false) :
    search_books_in_catalog st term "title" =
      (get_all_books st).filter
        (fun row => strContains (pyLower row.title) (pyLower (pyStrip term))) := by
  unfold search_books_in_catalog
  dsimp only
  rw [show pyLower (pyStrip "title") = "title" from by decide, h]
  simp

/-- Search with kind "author", reduced to a filter over the sorted shelf. -/
theorem search_author_eq (st : LibState) (term : String)
    (h : (pyStrip term).isEmpty = false) :
    search_books_in_catalog st term "author" =
      (get_all_books st).filter
        (fun row => strContains (pyLower row.author) (pyLower (pyStrip term))) := by
  unfold search_books_in_catalog
  dsimp only
  rw [show pyLower (pyStrip "author") = "author" from by decide, h]
  simp

/-- Catalog holding one book titled "Nights" with ISBN 9901738456207. -/
def nightBook : Book := ⟨1, "Nights", "N. Author", "9901738456207", 1, 1⟩

def nightState : LibState := ⟨[nightBook], [], 2, 1⟩

/-- C8: search returns `[]` for a blank term or an unknown kind; ISBN
search yields at most one row and a non-empty answer only for an exact
13-digit term; title/author search returns exactly the books whose field
contains the term case-insensitively, listed in title-sort order; and on
a catalog holding "Nights", the term "nIgHt" matches it by title, a
12-digit ISBN term returns empty, and the exact 13-digit ISBN returns
exactly that one row. -/
theorem claim_c8_search_behaviour :
    (∀ (st : LibState) (term ty : String),
      (pyStrip term = "" ∨ (pyLower (pyStrip ty) ≠ "title" ∧
        pyLower (pyStrip ty) ≠ "author" ∧ pyLower (pyStrip ty) ≠ "isbn")) →
      search_books_in_catalog st term ty = []) ∧
    (∀ (st : LibState) (term : String),
      (search_books_in_catalog st term "isbn").length ≤ 1 ∧
      (search_books_in_catalog st term "isbn" ≠ [] →
        (pyStrip term).length = 13 ∧ pyIsDigit (pyStrip term) = true)) ∧
    (∀ (st : LibState) (term : String), pyStrip term ≠ "" →
      (∀ b : Book, b ∈ search_books_in_catalog st term "title" ↔
        b ∈ st.books ∧ strContains (pyLower b.title) (pyLower (pyStrip term)) = true) ∧
      (∀ b : Book, b ∈ search_books_in_catalog st term "author" ↔
        b ∈ st.books ∧ strContains (pyLower b.author) (pyLower (pyStrip term)) = true) ∧
      List.Pairwise titleLe (search_books_in_catalog st term "title") ∧
      List.Pairwise titleLe (search_books_in_catalog st term "author")) ∧
    (search_books_in_catalog nightState "nIgHt" "title" = [nightBook] ∧
      search_books_in_catalog nightState "990173845620" "isbn" = [] ∧
      search_books_in_catalog nightState "9901738456207" "isbn" = [nightBook]) := by
  refine ⟨?_, ?_, ?_, by decide, by decide, by decide⟩
  · intro st term ty h
    unfold search_books_in_catalog
    dsimp only
    rcases h with h | ⟨h1, h2, h3⟩
    · rw [h]
      rfl
    · rw [beq_eq_false_iff_ne.mpr h1, beq_eq_false_iff_ne.mpr h2,
        beq_eq_false_iff_ne.mpr h3]
      simp
  · intro st term
    rw [search_isbn_eq]
    by_cases hq : (pyStrip term).isEmpty
    · simp [hq]
    · rw [Bool.not_eq_true] at hq
      rw [hq]
      simp only [Bool.false_eq_true, if_false]
      by_cases hlen : ((pyStrip term).length != 13 || !pyIsDigit (pyStrip term)) = true
      · rw [if_pos hlen]
        exact ⟨by simp, fun hne => absurd rfl hne⟩
      · rw [if_neg hlen]
        simp only [Bool.or_eq_true, bne_iff_ne, Bool.not_eq_true', not_or,
          Bool.not_eq_false, not_not] at hlen
        cases hfind : get_book_by_isbn st (pyStrip term) with
        | none => exact ⟨by simp, fun hne => absurd rfl hne⟩
        | some hit => exact ⟨by simp, fun _ => ⟨hlen.1, hlen.2⟩⟩
  · intro st term hterm
    have hne : (pyStrip term).isEmpty = false := by
      rw [Bool.eq_false_iff]
      intro hcl
      exact hterm ((String.isEmpty_iff (pyStrip term)).mp hcl)
    refine ⟨?_, ?_, ?_, ?_⟩
    · intro b
      rw [search_title_eq st term hne, List.mem_filter]
      unfold get_all_books
      rw [(List.perm_insertionSort titleLe st.books).mem_iff]
    · intro b
      rw [search_author_eq st term hne, List.mem_filter]
      unfold get_all_books
      rw [(List.perm_insertionSort titleLe st.books).mem_iff]
    · rw [search_title_eq st term hne]
      exact List.Pairwise.sublist (List.filter_sublist _)
        (List.sorted_insertionSort titleLe st.books)
    · rw [search_author_eq st term hne]
      exact List.Pairwise.sublist (List.filter_sublist _)
        (List.sorted_insertionSort titleLe st.books)

/-- C8 witness: a whitespace-only term returns the empty result. -/
theorem claim_c8_search_behaviour_witness :
    search_books_in_catalog nightState "   " "title" = [] :=
  claim_c8_search_behaviour.1 nightState "   " "title" (Or.inl (by decide))

/-! ## C4 -/

/-- The latest-row fold only ever answers with a row of its input list. -/
theorem latest_fold_mem (l : List BorrowRecord) :
    ∀ (acc : Option BorrowRecord) (r : BorrowRecord),
      (l.foldl
        (fun acc r =>
          match acc with
          | none => some r
          | some b => if DTime.lt b.borrow_date r.borrow_date then some r else some b)
        acc) = some r →
      acc = some r ∨ r ∈ l := by
  induction l with
  | nil => intro acc r h; exact Or.inl h
  | cons x xs ih =>
    intro acc r h
    rcases ih _ r h with h2 | h2
    · cases acc with
      | none =>
        cases h2
        exact Or.inr (List.mem_cons_self _ _)
      | some b =>
        dsimp only at h2
        split at h2
        · cases h2
          exact Or.inr (List.mem_cons_self _ _)
        · exact Or.inl h2
    · exact Or.inr (List.mem_cons_of_mem _ h2)

/-- A hit of `get_active_borrow` is an active record of the pair. -/
theorem get_active_borrow_mem (st : LibState) (pid : String) (book_id : Nat)
    (loan : BorrowRecord) (h : get_active_borrow st pid book_id = some loan) :
    loan ∈ st.records ∧ matchesActivePair pid book_id loan = true := by
  unfold get_active_borrow latestByBorrowDate at h
  rcases latest_fold_mem _ none loan h with h2 | h2
  · exact absurd h2 (by simp)
  · exact List.mem_filter.mp h2

/-- Catalog with one book that patron 123456 has two concurrent active
loans on (borrowed on day 0 and day 5). -/
def c4Book : Book := ⟨1, "Twice Borrowed", "B. Author", "9700000000001", 3, 1⟩

def c4Rec1 : BorrowRecord := ⟨1, "123456", 1, ⟨0, 0⟩, ⟨14, 0⟩, none⟩

def c4Rec2 : BorrowRecord := ⟨2, "123456", 1, ⟨5, 0⟩, ⟨19, 0⟩, none⟩

def c4State : LibState := ⟨[c4Book], [c4Rec1, c4Rec2], 2, 3⟩

/-- C4 counterexample: the most recent active record for the pair is the
day-5 one (rid 2), yet after the return BOTH active records — including
the older rid 1, which the claim says is left unchanged — carry the new
return_date. -/
theorem claim_c4_counterexample :
    get_active_borrow c4State "123456" 1 = some c4Rec2 ∧
    (return_book_by_patron c4State "123456" 1 ⟨20, 0⟩).2.2.records =
      [⟨1, "123456", 1, ⟨0, 0⟩, ⟨14, 0⟩, some ⟨20, 0⟩⟩,
        ⟨2, "123456", 1, ⟨5, 0⟩, ⟨19, 0⟩, some ⟨20, 0⟩⟩] := by
  refine ⟨by decide, by decide⟩

/-- C4 amended: a successful return stamps return_date = now on EVERY
active record of the (patron_id, book_id) pair — not only the most recent
— leaving all other records unchanged, so no active record for the pair
survives; each record is still mutated at most once overall, since the
update only touches rows whose return_date is still null. -/
theorem claim_c4_return_updates_all_amended (st : LibState) (pid : String)
    (book_id : Nat) (now : DTime) (book : Book) (loan : BorrowRecord)
    (hpid : isValidPatronId pid = true)
    (hbook : get_book_by_id st book_id = some book)
    (hloan : get_active_borrow st pid book_id = some loan) :
    (return_book_by_patron st pid book_id now).2.2.records =
      st.records.map (fun r =>
        if matchesActivePair pid book_id r then { r with return_date := some now }
        else r) ∧
    get_active_borrow (return_book_by_patron st pid book_id now).2.2 pid book_id =
      none := by
  rw [return_book_eq st pid book_id now book loan hpid hbook hloan]
  refine ⟨rfl, ?_⟩
  unfold get_active_borrow
  have hfil : (update_book_availability
        (update_borrow_record_return_date st pid book_id now) book_id 1).records.filter
      (matchesActivePair pid book_id) = [] := by
    rw [List.filter_eq_nil_iff]
    intro r hr
    rcases List.mem_map.mp hr with ⟨r0, _, rfl⟩
    by_cases hm : matchesActivePair pid book_id r0 = true
    · rw [if_pos hm]
      simp [matchesActivePair]
    · rw [Bool.not_eq_true] at hm
      rw [if_neg (by simp [hm])]
      simp [hm]
  rw [hfil]
  rfl

/-- C4 witness: on the two-active-loan store, the amended description of
the record table after the return holds. -/
theorem claim_c4_return_updates_all_amended_witness :
    (return_book_by_patron c4State "123456" 1 ⟨20, 0⟩).2.2.records =
      c4State.records.map (fun r =>
        if matchesActivePair "123456" 1 r then { r with return_date := some ⟨20, 0⟩ }
        else r) ∧
    get_active_borrow (return_book_by_patron c4State "123456" 1 ⟨20, 0⟩).2.2
      "123456" 1 = none :=
  claim_c4_return_updates_all_amended c4State "123456" 1 ⟨20, 0⟩ c4Book c4Rec2
    (by decide) (by decide) (by decide)

/-! ## C3 -/

/-- Number of active loan rows pointing at a given book. -/
def activeCountFor (recs : List BorrowRecord) (book_id : Nat) : Nat :=
  recs.countP (fun r => r.return_date == none && r.book_id == book_id)

/-- Inductive invariant of the store: book ids are unique and below the
autoincrement counter, every book keeps
`0 ≤ available ∧ available + active-loans ≤ total`, and every loan row
points at an existing book. -/
def StoreInv (st : LibState) : Prop :=
  (st.books.map Book.id).Nodup ∧
  (∀ b ∈ st.books, b.id < st.nextBookId) ∧
  (∀ b ∈ st.books, 0 ≤ b.available_copies ∧
    b.available_copies + (activeCountFor st.records b.id : Int) ≤ b.total_copies) ∧
  (∀ r ∈ st.records, ∃ b ∈ st.books, b.id = r.book_id)

theorem inv_empty : StoreInv emptyState := by
  refine ⟨List.nodup_nil, ?_, ?_, ?_⟩ <;> intro x hx <;> cases hx

/-- A `get_book_by_id` hit is a member with that id. -/
theorem get_book_by_id_mem (st : LibState) (book_id : Nat) (book : Book)
    (h : get_book_by_id st book_id = some book) :
    book ∈ st.books ∧ book.id = book_id := by
  unfold get_book_by_id at h
  exact ⟨List.mem_of_find?_eq_some h, by simpa using List.find?_some h⟩

/-- The availability update does not change the id column. -/
theorem update_avail_map_id (books : List Book) (bid : Nat) (c : Int) :
    (books.map (fun b =>
      if b.id == bid then { b with available_copies := b.available_copies + c }
      else b)).map Book.id = books.map Book.id := by
  rw [List.map_map]
  apply List.map_congr_left
  intro b _
  by_cases hb : (b.id == bid) = true <;> simp [Function.comp, hb]

/-- Strict count decrease: a pointwise-smaller predicate that loses a
definite witness counts strictly fewer elements. -/
theorem countP_lt_of_mem {α : Type} (l : List α) (p q : α → Bool)
    (hle : ∀ a ∈ l, q a = true → p a = true) (a : α) (ha : a ∈ l)
    (hpa : p a = true) (hqa : q a = false) :
    l.countP q < l.countP p := by
  induction l with
  | nil => cases ha
  | cons x xs ih =>
    rw [List.countP_cons, List.countP_cons]
    rcases List.mem_cons.mp ha with rfl | ha2
    · have h1 : List.countP q xs ≤ List.countP p xs :=
        List.countP_mono_left (fun r hr => hle r (List.mem_cons_of_mem _ hr))
      rw [hpa, hqa]
      simp only [if_true, Bool.false_eq_true, if_false]
      omega
    · have h1 := ih (fun r hr => hle r (List.mem_cons_of_mem _ hr)) ha2
      have h2 : (if q x = true then 1 else 0) ≤ (if p x = true then 1 else 0) := by
        by_cases hx : q x = true
        · rw [if_pos hx, if_pos (hle x (List.mem_cons_self _ _) hx)]
        · rw [if_neg hx]
          omega
      omega

/-- Inserting a fresh book with `available = total = c > 0` preserves the
invariant. -/
theorem inv_insert_book (st : LibState) (t a i : String) (c : Int)
    (h : StoreInv st) (hc : 0 < c) : StoreInv (insert_book st t a i c c) := by
  obtain ⟨hnd, hlt, hbnd, href⟩ := h
  unfold insert_book
  refine ⟨?_, ?_, ?_, ?_⟩
  · rw [List.map_append]
    refine List.Nodup.append hnd (List.nodup_singleton _) ?_
    intro x hx hy
    rcases List.mem_map.mp hx with ⟨b, hb, rfl⟩
    rcases List.mem_singleton.mp hy with h2
    dsimp only at h2
    have := hlt b hb
    omega
  · intro b hb
    rcases List.mem_append.mp hb with hb2 | hb2
    · exact Nat.lt_succ_of_lt (hlt b hb2)
    · rcases List.mem_singleton.mp hb2 with rfl
      exact Nat.lt_succ_self _
  · intro b hb
    rcases List.mem_append.mp hb with hb2 | hb2
    · exact hbnd b hb2
    · rcases List.mem_singleton.mp hb2 with rfl
      have hzero : activeCountFor st.records st.nextBookId = 0 := by
        unfold activeCountFor
        rw [List.countP_eq_zero]
        intro r hr hpr
        rcases href r hr with ⟨b0, hb0, hb0id⟩
        have h3 : r.book_id = st.nextBookId := by
          simpa using (Bool.and_elim_right hpr)
        have := hlt b0 hb0
        omega
      refine ⟨le_of_lt hc, ?_⟩
      dsimp only
      rw [hzero]
      simp
  · intro r hr
    rcases href r hr with ⟨b0, hb0, hb0id⟩
    exact ⟨b0, List.mem_append_left _ hb0, hb0id⟩

/-- `add_book_to_catalog` preserves the invariant. -/
theorem inv_add (st : LibState) (title author isbn : String) (copies : Int)
    (h : StoreInv st) : StoreInv (add_book_to_catalog st title author isbn copies).2.2 := by
  unfold add_book_to_catalog
  split
  · exact h
  split
  · exact h
  split
  · exact h
  split
  · exact h
  split
  · exact h
  split
  · exact h
  split
  · exact h
  · exact inv_insert_book st _ _ _ copies h (by omega)

/-- A successful borrow — availability was positive — preserves the
invariant. -/
theorem inv_borrow_success (st : LibState) (pid : String) (book_id : Nat)
    (borrow_date due : DTime) (book : Book)
    (h : StoreInv st) (hbook : get_book_by_id st book_id = some book)
    (havail : 0 < book.available_copies) :
    StoreInv (update_book_availability
      (insert_borrow_record st pid book_id borrow_date due) book_id (-1)) := by
  obtain ⟨hnd, hlt, hbnd, href⟩ := h
  obtain ⟨hmem, hid⟩ := get_book_by_id_mem st book_id book hbook
  unfold update_book_availability insert_borrow_record
  dsimp only
  have hacc : ∀ bid : Nat,
      activeCountFor (st.records ++ [⟨st.nextRecId, pid, book_id, borrow_date, due, none⟩]) bid =
        activeCountFor st.records bid + (if bid = book_id then 1 else 0) := by
    intro bid
    unfold activeCountFor
    rw [List.countP_append]
    congr 1
    by_cases hb2 : bid = book_id
    · subst hb2
      simp [List.countP_cons]
    · rw [if_neg hb2]
      simp [List.countP_cons, Ne.symm hb2]
  refine ⟨?_, ?_, ?_, ?_⟩
  · rw [update_avail_map_id]
    exact hnd
  · intro b hb
    rcases List.mem_map.mp hb with ⟨b0, hb0, rfl⟩
    by_cases hb0id : (b0.id == book_id) = true
    · rw [if_pos hb0id]
      exact hlt b0 hb0
    · rw [if_neg hb0id]
      exact hlt b0 hb0
  · intro b hb
    rcases List.mem_map.mp hb with ⟨b0, hb0, rfl⟩
    by_cases hb0id : (b0.id == book_id) = true
    · have hb0eq : b0 = book :=
        List.inj_on_of_nodup_map hnd hb0 hmem (by rw [beq_iff_eq.mp hb0id, hid])
      subst hb0eq
      rw [if_pos hb0id]
      have hb2 := hbnd b0 hb0
      refine ⟨by dsimp only; omega, ?_⟩
      dsimp only
      rw [hacc b0.id, if_pos (beq_iff_eq.mp hb0id)]
      push_cast at hb2 ⊢
      omega
    · rw [if_neg hb0id]
      have hb2 := hbnd b0 hb0
      refine ⟨hb2.1, ?_⟩
      rw [hacc b0.id, if_neg (fun he => hb0id (beq_iff_eq.mpr he))]
      simpa using hb2.2
  · intro r hr
    rcases List.mem_append.mp hr with hr2 | hr2
    · rcases href r hr2 with ⟨b0, hb0, hb0id⟩
      refine ⟨(fun b => if (b.id == book_id) = true then
          { b with available_copies := b.available_copies + (-1) } else b) b0,
        List.mem_map_of_mem _ hb0, ?_⟩
      dsimp only
      by_cases hx : (b0.id == book_id) = true
      · rw [if_pos hx]
        exact hb0id
      · rw [if_neg hx]
        exact hb0id
    · rcases List.mem_singleton.mp hr2 with rfl
      refine ⟨(fun b => if (b.id == book_id) = true then
          { b with available_copies := b.available_copies + (-1) } else b) book,
        List.mem_map_of_mem _ hmem, ?_⟩
      dsimp only
      rw [if_pos (by rw [hid]; exact beq_self_eq_true _)]
      exact hid

/-- A successful return — an active loan existed — preserves the
invariant. -/
theorem inv_return_success (st : LibState) (pid : String) (book_id : Nat)
    (now : DTime) (book : Book) (loan : BorrowRecord)
    (h : StoreInv st) (hbook : get_book_by_id st book_id = some book)
    (hloan : get_active_borrow st pid book_id = some loan) :
    StoreInv (update_book_availability
      (update_borrow_record_return_date st pid book_id now) book_id 1) := by
  obtain ⟨hnd, hlt, hbnd, href⟩ := h
  obtain ⟨hmem, hid⟩ := get_book_by_id_mem st book_id book hbook
  obtain ⟨hlmem, hlmatch⟩ := get_active_borrow_mem st pid book_id loan hloan
  unfold update_book_availability update_borrow_record_return_date
  dsimp only
  have hgbid : ∀ r : BorrowRecord,
      ((if matchesActivePair pid book_id r then { r with return_date := some now }
        else r).book_id) = r.book_id := by
    intro r
    by_cases hm : matchesActivePair pid book_id r = true
    · rw [if_pos hm]
    · rw [if_neg hm]
  have hle : ∀ bid : Nat, ∀ r ∈ st.records,
      (((if matchesActivePair pid book_id r then { r with return_date := some now }
          else r).return_date == none) &&
        ((if matchesActivePair pid book_id r then { r with return_date := some now }
          else r).book_id == bid)) = true →
      (r.return_date == none && r.book_id == bid) = true := by
    intro bid r _ hpr
    by_cases hm : matchesActivePair pid book_id r = true
    · rw [if_pos hm] at hpr
      simp at hpr
    · rwa [if_neg hm] at hpr
  have hother : ∀ bid : Nat, bid ≠ book_id →
      activeCountFor (st.records.map (fun r =>
        if matchesActivePair pid book_id r then { r with return_date := some now }
        else r)) bid = activeCountFor st.records bid := by
    intro bid hbid
    unfold activeCountFor
    rw [List.countP_map]
    apply List.countP_congr
    intro r _
    simp only [Function.comp_apply]
    by_cases hm : matchesActivePair pid book_id r = true
    · have hm2 := hm
      unfold matchesActivePair at hm2
      simp only [Bool.and_eq_true, beq_iff_eq] at hm2
      rw [if_pos hm]
      simp [hm2.1.2, hm2.2, Ne.symm hbid]
    · rw [if_neg hm]
  have hdec : activeCountFor (st.records.map (fun r =>
      if matchesActivePair pid book_id r then { r with return_date := some now }
      else r)) book_id < activeCountFor st.records book_id := by
    unfold activeCountFor
    rw [List.countP_map]
    refine countP_lt_of_mem st.records _ _ (hle book_id) loan hlmem ?_ ?_
    · unfold matchesActivePair at hlmatch
      simp only [Bool.and_eq_true, beq_iff_eq] at hlmatch
      simp [hlmatch.1.2, hlmatch.2]
    · show (((if matchesActivePair pid book_id loan then _ else loan)).return_date == none &&
        _) = false
      rw [if_pos hlmatch]
      simp
  refine ⟨?_, ?_, ?_, ?_⟩
  · rw [update_avail_map_id]
    exact hnd
  · intro b hb
    rcases List.mem_map.mp hb with ⟨b0, hb0, rfl⟩
    by_cases hb0id : (b0.id == book_id) = true
    · rw [if_pos hb0id]
      exact hlt b0 hb0
    · rw [if_neg hb0id]
      exact hlt b0 hb0
  · intro b hb
    rcases List.mem_map.mp hb with ⟨b0, hb0, rfl⟩
    have hb2 := hbnd b0 hb0
    by_cases hb0id : (b0.id == book_id) = true
    · rw [if_pos hb0id]
      refine ⟨by dsimp only; omega, ?_⟩
      dsimp only
      rw [beq_iff_eq.mp hb0id]
      have hb3 := hb2.2
      rw [beq_iff_eq.mp hb0id] at hb3
      have hdec2 := hdec
      omega
    · rw [if_neg hb0id]
      refine ⟨hb2.1, ?_⟩
      rw [hother b0.id (fun he => hb0id (beq_iff_eq.mpr he))]
      exact hb2.2
  · intro r hr
    rcases List.mem_map.mp hr with ⟨r0, hr0, rfl⟩
    rcases href r0 hr0 with ⟨b0, hb0, hb0id⟩
    refine ⟨(fun b => if (b.id == book_id) = true then
        { b with available_copies := b.available_copies + 1 } else b) b0,
      List.mem_map_of_mem _ hb0, ?_⟩
    dsimp only
    rw [hgbid r0]
    by_cases hx : (b0.id == book_id) = true
    · rw [if_pos hx]
      exact hb0id
    · rw [if_neg hx]
      exact hb0id

/-- `borrow_book_by_patron` preserves the invariant. -/
theorem inv_borrow (st : LibState) (pid : String) (book_id : Nat) (now : DTime)
    (h : StoreInv st) : StoreInv (borrow_book_by_patron st pid book_id now).2.2 := by
  unfold borrow_book_by_patron
  by_cases hv : (!isValidPatronId pid) = true
  · rw [if_pos hv]
    exact h
  · rw [if_neg hv]
    cases hbook : get_book_by_id st book_id with
    | none => exact h
    | some book =>
      dsimp only
      by_cases ha : book.available_copies ≤ 0
      · rw [if_pos ha]
        exact h
      · rw [if_neg ha]
        by_cases hc : 5 ≤ get_patron_borrow_count st pid
        · rw [if_pos hc]
          exact h
        · rw [if_neg hc]
          exact inv_borrow_success st pid book_id now ⟨now.day + 14, now.sec⟩ book h
            hbook (by omega)

/-- `return_book_by_patron` preserves the invariant. -/
theorem inv_ret (st : LibState) (pid : String) (book_id : Nat) (now : DTime)
    (h : StoreInv st) : StoreInv (return_book_by_patron st pid book_id now).2.2 := by
  unfold return_book_by_patron
  by_cases hv : (!isValidPatronId pid) = true
  · rw [if_pos hv]
    exact h
  · rw [if_neg hv]
    cases hbook : get_book_by_id st book_id with
    | none => exact h
    | some book =>
      dsimp only
      cases hloan : get_active_borrow st pid book_id with
      | none => exact h
      | some loan =>
        dsimp only
        split
        · exact inv_return_success st pid book_id now book loan h hbook hloan
        · exact inv_return_success st pid book_id now book loan h hbook hloan

/-- Every reachable store state satisfies the inductive invariant. -/
theorem reachable_inv (st : LibState) (h : Reachable st) : StoreInv st := by
  induction h with
  | empty => exact inv_empty
  | add st title author isbn copies _ ih => exact inv_add st title author isbn copies ih
  | borrow st pid book_id now _ ih => exact inv_borrow st pid book_id now ih
  | ret st pid book_id now _ ih => exact inv_ret st pid book_id now ih

/-- C3: in every store state reachable from the empty catalog through the
public operations (catalog add, borrow, return), every book satisfies
`0 ≤ available_copies ≤ total_copies`.  The proof threads the stronger
invariant `available + active-loans ≤ total`: catalog-add creates books
with `available = total`, a borrow decrements availability by exactly 1
and only fires when it is positive, and a return increments it by exactly
1 and only fires when an active loan exists. -/
theorem claim_c3_availability_invariant (st : LibState) (h : Reachable st) :
    ∀ b ∈ st.books, 0 ≤ b.available_copies ∧
      b.available_copies ≤ b.total_copies := by
  intro b hb
  obtain ⟨-, -, hbnd, -⟩ := reachable_inv st h
  have h2 := hbnd b hb
  refine ⟨h2.1, ?_⟩
  have h3 := h2.2
  omega

/-- C3 witness: the invariant at the one concrete book of the reachable
state obtained by adding one book (2 copies) and borrowing it once. -/
theorem claim_c3_availability_invariant_witness :
    0 ≤ (⟨1, "Emma", "Jane Austen", "9780141439587", 2, 1⟩ : Book).available_copies ∧
    (⟨1, "Emma", "Jane Austen", "9780141439587", 2, 1⟩ : Book).available_copies ≤
      (⟨1, "Emma", "Jane Austen", "9780141439587", 2, 1⟩ : Book).total_copies :=
  claim_c3_availability_invariant _
    (Reachable.borrow _ "123456" 1 ⟨0, 0⟩
      (Reachable.add emptyState "Emma" "Jane Austen" "9780141439587" 2
        Reachable.empty))
    ⟨1, "Emma", "Jane Austen", "9780141439587", 2, 1⟩ (by decide)
